import Mathlib

/-!
# VIA emulation (`via.c`) of the Commander X16 emulator

A shallow embedding of `via.c`: the two versatile interface adapters of the
emulated machine.  Every `uint8_t` object is a natural number below 256.  C
evaluates the operands of `&`, `|`, `~`, `<<`, `>>` after promotion to `int`;
an `int` is taken to be 32 bits wide in two's complement and is represented by
its bit pattern, a natural number below `2 ^ 32`.  On bit patterns `&` and `|`
are `&&&` and `|||`, the complement `~` is `int_not`, and the store into a
`uint8_t` object keeps the low eight bits (`u8`).  The `printf` trace lines
have no effect on the state and are left out.
-/

namespace Via

/-! ## C integer helpers -/

/-- Conversion of an `int` bit pattern to `uint8_t`: reduction modulo 256. -/
def u8 (x : Nat) : Nat := x % 256

/-- The C operator `~` on the bit pattern of a 32-bit `int`. -/
def int_not (x : Nat) : Nat := (x ^^^ 0xFFFFFFFF) % 2 ^ 32

/-- Conversion of a `bool` (or single-bit line) to `int`: 0 or 1. -/
def b2n (b : Bool) : Nat := if b then 1 else 0

/-- The C idiom `!!x`: true exactly when `x` is not zero. -/
def nonzero (x : Nat) : Bool := decide (x ≠ 0)

/-! ## Interrupt flag bits (`via.c` lines 16-22) -/

def VIA_IFR_CA2 : Nat := 1
def VIA_IFR_CA1 : Nat := 2
def VIA_IFR_SR : Nat := 4
def VIA_IFR_CB2 : Nat := 8
def VIA_IFR_CB1 : Nat := 16
def VIA_IFR_T2 : Nat := 32
def VIA_IFR_T1 : Nat := 64

/-! ## VIA#2: pin state resolution -/

/-- Function `via2_state` (lines 125-136).  The two results `*pinstate` and
`*readback` are returned as a pair.  `driving` is a `uint8_t` local, so its
initialiser is truncated; `*pinstate` is read back as a `uint8_t` in the last
statement. -/
def via2_state (inp out ddr : Nat) : Nat × Nat :=
  let driving : Nat := u8 ((ddr &&& out) ||| int_not ddr)
  let pinstate : Nat := u8 (int_not (int_not inp ||| int_not driving))
  let readback : Nat := u8 ((ddr &&& driving) ||| (int_not ddr &&& pinstate))
  (pinstate, readback)

/-- The `driving` formula of the specification, on bytes: the complement is
the 8-bit complement `x ^^^ 0xff`. -/
def spec_driving (out ddr : Nat) : Nat := ((ddr &&& out) ||| (ddr ^^^ 0xff)) % 256

/-- The `pinstate` formula of the specification, on bytes. -/
def spec_pinstate (inp out ddr : Nat) : Nat :=
  (((inp ^^^ 0xff) ||| (spec_driving out ddr ^^^ 0xff)) ^^^ 0xff) % 256

/-- The `readback` formula of the specification, on bytes. -/
def spec_readback (inp out ddr : Nat) : Nat :=
  ((ddr &&& spec_driving out ddr) ||| ((ddr ^^^ 0xff) &&& spec_pinstate inp out ddr)) % 256

/-! ## VIA#2: state -/

/-- Modelled from the spec: `ps2.h` is not among the sources.  One peripheral
serial port, "clock-in, clock-out, data-in, data-out - each a single bit"; the
`in` lines are driven by the VIA, the `out` lines by the peripheral. -/
structure Ps2Port where
  clk_out : Bool
  data_out : Bool
  clk_in : Bool
  data_in : Bool
deriving DecidableEq, Repr

/-- Modelled from the spec: `joystick.h` is not among the sources.  The
joystick lines, "two single-bit data inputs; latch and clock are single-bit
outputs driven by this core". -/
structure Joystick where
  joystick1_data : Bool
  joystick2_data : Bool
  joystick_latch : Bool
  joystick_clock : Bool
deriving DecidableEq, Repr

/-- The objects `via2_*` works on: the file-scope statics of lines 97-108, the
function-local statics `old_ca1`, `old_cb1` (of `via2_step`) and `count` (of
`via2_get_irq_out`), and the external objects of `ps2.h` and `joystick.h`
that `via2_init` and `via2_step` read and write.  The array `ps2_port[2]` is
the two fields `ps2_port0`, `ps2_port1`; the four joystick variables are the
field `joystick`. -/
structure Via2 where
  via2registers : List Nat
  via2ifr : Nat
  via2ier : Nat
  via2pa_out : Nat
  via2pb_out : Nat
  via2pa_pinstate : Nat
  via2pb_pinstate : Nat
  via2pa_readback : Nat
  via2pb_readback : Nat
  via2ddra : Nat
  via2ddrb : Nat
  old_ca1 : Bool
  old_cb1 : Bool
  count : Nat
  ps2_port0 : Ps2Port
  ps2_port1 : Ps2Port
  joystick : Joystick
deriving DecidableEq, Repr

/-- The type invariant of the C objects: sixteen register slots, and every
`uint8_t` object holds a value below 256. -/
def Via2.WF (s : Via2) : Prop :=
  s.via2registers.length = 16 ∧ (∀ x ∈ s.via2registers, x < 256) ∧
  s.via2ifr < 256 ∧ s.via2ier < 256 ∧ s.via2pa_out < 256 ∧ s.via2pb_out < 256 ∧
  s.via2pa_pinstate < 256 ∧ s.via2pb_pinstate < 256 ∧
  s.via2pa_readback < 256 ∧ s.via2pb_readback < 256 ∧
  s.via2ddra < 256 ∧ s.via2ddrb < 256

instance (s : Via2) : Decidable s.WF := by
  unfold Via2.WF; infer_instance

/-- The chip-B objects as the C runtime zero-initialises them, with the
external lines at the given levels. -/
def via2_zero (p0 p1 : Ps2Port) (j : Joystick) : Via2 :=
  { via2registers := List.replicate 16 0, via2ifr := 0, via2ier := 0,
    via2pa_out := 0, via2pb_out := 0, via2pa_pinstate := 0, via2pb_pinstate := 0,
    via2pa_readback := 0, via2pb_readback := 0, via2ddra := 0, via2ddrb := 0,
    old_ca1 := false, old_cb1 := false, count := 0,
    ps2_port0 := p0, ps2_port1 := p1, joystick := j }

/-! ## VIA#2: operations -/

/-- Function `via2_init` (lines 110-123). -/
def via2_init (s : Via2) : Via2 :=
  { s with
    via2ier := 0
    via2ddrb := 0
    via2ddra := 0
    ps2_port0 := { s.ps2_port0 with clk_in := true, data_in := true }
    ps2_port1 := { s.ps2_port1 with clk_in := true, data_in := true } }

/-- The external input vector `pa_in` of `via2_step` (lines 141-149). -/
def pa_in (s : Via2) : Nat :=
  u8 ((b2n s.ps2_port0.data_out <<< 0) |||
      (b2n s.ps2_port0.clk_out <<< 1) |||
      (1 <<< 2) |||
      (1 <<< 3) |||
      (b2n s.joystick.joystick1_data <<< 4) |||
      (1 <<< 5) |||
      (b2n s.joystick.joystick2_data <<< 6) |||
      (1 <<< 7))

/-- The external input vector `pb_in` of `via2_step` (lines 158-166). -/
def pb_in (s : Via2) : Nat :=
  u8 ((b2n s.ps2_port1.data_out <<< 0) |||
      (b2n s.ps2_port1.clk_out <<< 1) |||
      (1 <<< 2) |||
      (1 <<< 3) |||
      (1 <<< 4) |||
      (1 <<< 5) |||
      (1 <<< 6) |||
      (1 <<< 7))

/-- Function `via2_step` (lines 138-198).  The statements are taken in source
order: Port A is resolved and written back, then Port B, then the two edge
detectors run on the `clk_out` lines. -/
def via2_step (s : Via2) : Via2 :=
  let pa := via2_state (pa_in s) s.via2pa_out s.via2ddra
  let s1 : Via2 :=
    { s with
      via2pa_pinstate := pa.1
      via2pa_readback := pa.2
      ps2_port0 :=
        { s.ps2_port0 with
          data_in := nonzero (pa.1 >>> 0)
          clk_in := nonzero (pa.1 >>> 1) }
      joystick :=
        { s.joystick with
          joystick_latch := nonzero (pa.1 >>> 3)
          joystick_clock := nonzero (pa.1 >>> 5) } }
  let pb := via2_state (pb_in s1) s1.via2pb_out s1.via2ddrb
  let s2 : Via2 :=
    { s1 with
      via2pb_pinstate := pb.1
      via2pb_readback := pb.2
      ps2_port1 :=
        { s1.ps2_port1 with
          data_in := nonzero (pb.1 >>> 0)
          clk_in := nonzero (pb.1 >>> 1) } }
  let ca1 : Bool := s2.ps2_port0.clk_out
  let s3 : Via2 :=
    if ca1 != s2.old_ca1 then
      if !ca1 then { s2 with via2ifr := u8 (s2.via2ifr ||| VIA_IFR_CA1) } else s2
    else s2
  let s4 : Via2 := { s3 with old_ca1 := ca1 }
  let cb1 : Bool := s4.ps2_port1.clk_out
  let s5 : Via2 :=
    if cb1 != s4.old_cb1 then
      if !cb1 then { s4 with via2ifr := u8 (s4.via2ifr ||| VIA_IFR_CB1) } else s4
    else s4
  { s5 with old_cb1 := cb1 }

/-- Function `via2_get_irq_out` (lines 200-215): the returned level and the
state after the call.  `count` is an `int` that is only ever compared with
100; it is kept as an unbounded counter. -/
def via2_get_irq_out (s : Via2) : Bool × Via2 :=
  let s1 : Via2 :=
    if ((s.via2ifr &&& s.via2ier) &&& (VIA_IFR_CA1 ||| VIA_IFR_CB1))
        = (VIA_IFR_CA1 ||| VIA_IFR_CB1) then
      { s with count := s.count + 1 }
    else
      { s with count := 0 }
  (nonzero (s1.via2ifr &&& s1.via2ier), s1)

/-- Function `via2_read` (lines 217-252): the byte returned and the state
after the call.  An index above 15 is outside the array `via2registers` and
outside the contract of the function: the C code then reads past the array,
which `getD` does not describe, so this definition is the function for
`reg < 16` only. -/
def via2_read (s : Via2) (reg : Nat) : Nat × Via2 :=
  if reg = 0 then
    let s1 : Via2 := { s with via2ifr := u8 (s.via2ifr &&& int_not VIA_IFR_CB1) }
    (s1.via2pb_readback, s1)
  else if reg = 1 then
    let s1 : Via2 := { s with via2ifr := u8 (s.via2ifr &&& int_not VIA_IFR_CA1) }
    (s1.via2pa_readback, s1)
  else if reg = 2 then
    (s.via2ddrb, s)
  else if reg = 3 then
    (s.via2ddra, s)
  else if reg = 13 then
    let val : Nat := s.via2ifr
    let val : Nat := if val ≠ 0 then u8 (val ||| 0x80) else val
    (val, s)
  else if reg = 14 then
    (s.via2ier, s)
  else
    (s.via2registers.getD reg 0, s)

/-- Function `via2_write` (lines 254-287).  An index above 15 is outside the
array `via2registers` and outside the contract of the function: the C code
then stores past the array, into whatever object follows it, while `List.set`
leaves the list as it is, so this definition is the function for `reg < 16`
only. -/
def via2_write (s : Via2) (reg value : Nat) : Via2 :=
  let s1 : Via2 := { s with via2registers := s.via2registers.set reg value }
  let s2 : Via2 :=
    if reg = 0 then { s1 with via2pb_out := value }
    else if reg = 1 then { s1 with via2pa_out := value }
    else if reg = 2 then { s1 with via2ddrb := value }
    else if reg = 3 then { s1 with via2ddra := value }
    else if reg = 13 then s1
    else if reg = 14 then
      if value &&& 0x80 ≠ 0 then
        { s1 with via2ier := u8 (s1.via2ier ||| (value &&& 0x7f)) }
      else
        { s1 with via2ier := u8 (s1.via2ier &&& int_not (value &&& 0x7f)) }
    else s1
  let s3 : Via2 :=
    if reg = 0 then { s2 with via2ifr := u8 (s2.via2ifr &&& int_not VIA_IFR_CB1) } else s2
  if reg = 1 then { s3 with via2ifr := u8 (s3.via2ifr &&& int_not VIA_IFR_CA1) } else s3

/-! ## VIA#2: the peripherals between two calls -/

/-- The levels the peripherals put on the lines the VIA samples: the `out`
lines of the two serial ports and the two joystick data lines. -/
structure Lines where
  clk_out0 : Bool
  data_out0 : Bool
  clk_out1 : Bool
  data_out1 : Bool
  joy1 : Bool
  joy2 : Bool
deriving DecidableEq, Repr

/-- The peripherals drive their lines; no object of `via.c` changes. -/
def set_lines (s : Via2) (e : Lines) : Via2 :=
  { s with
    ps2_port0 := { s.ps2_port0 with clk_out := e.clk_out0, data_out := e.data_out0 }
    ps2_port1 := { s.ps2_port1 with clk_out := e.clk_out1, data_out := e.data_out1 }
    joystick := { s.joystick with joystick1_data := e.joy1, joystick2_data := e.joy2 } }

/-- One emulated tick: the peripherals drive their lines, then `via2_step`
runs. -/
def tick (s : Via2) (e : Lines) : Via2 := via2_step (set_lines s e)

/-- A run of ticks, one per element of the list, in order. -/
def run (s : Via2) (es : List Lines) : Via2 := es.foldl tick s

/-- All lines passive (high). -/
def lines_high : Lines :=
  { clk_out0 := true, data_out0 := true, clk_out1 := true, data_out1 := true,
    joy1 := true, joy2 := true }

/-- The keyboard port pulls its clock low, all other lines are high. -/
def lines_clk0_low : Lines := { lines_high with clk_out0 := false }

/-- The mouse port pulls its clock low, all other lines are high. -/
def lines_clk1_low : Lines := { lines_high with clk_out1 := false }

/-- Both serial ports pull their clock low, all other lines are high. -/
def lines_clks_low : Lines := { lines_high with clk_out0 := false, clk_out1 := false }

/-- A serial port with all four lines high. -/
def port_high : Ps2Port :=
  { clk_out := true, data_out := true, clk_in := true, data_in := true }

/-- The joystick lines, all high. -/
def joystick_high : Joystick :=
  { joystick1_data := true, joystick2_data := true,
    joystick_latch := true, joystick_clock := true }

/-- Chip B after start-up: zero-initialised statics, `via2_init`, and one
tick with every line high. -/
def via2_started : Via2 :=
  tick (via2_init (via2_zero port_high port_high joystick_high)) lines_high

/-- Chip B after start-up and one falling edge on each of the two clock
lines: both CA1 and CB1 are pending. -/
def via2_both_pending : Via2 :=
  tick via2_started lines_clks_low

/-! ## VIA#1 -/

/-- Modelled from the spec: `memory.h` and its implementation are not among
the sources.  The state of "a memory-bank selector with get/set accessors"
for "a ROM-bank value" and "a RAM-bank value". -/
structure Memory where
  rom_bank : Nat
  ram_bank : Nat
deriving DecidableEq, Repr

/-- The objects `via1_*` works on: the static `via1registers` (line 36), the
memory module, and the number of calls of `rand()` made so far. -/
structure Via1 where
  via1registers : List Nat
  memory : Memory
  rand_calls : Nat
deriving DecidableEq, Repr

/-- The type invariant of the C objects of chip A. -/
def Via1.WF (s : Via1) : Prop :=
  s.via1registers.length = 16 ∧ (∀ x ∈ s.via1registers, x < 256)

instance (s : Via1) : Decidable s.WF := by
  unfold Via1.WF; infer_instance

/-- Modelled from the spec: the set accessor of the ROM bank, which is
missing from the sources, stores the value it is given. -/
def memory_set_rom_bank (m : Memory) (bank : Nat) : Memory := { m with rom_bank := bank }

/-- Modelled from the spec: the set accessor of the RAM bank, which is
missing from the sources, stores the value it is given. -/
def memory_set_ram_bank (m : Memory) (bank : Nat) : Memory := { m with ram_bank := bank }

/-- Modelled from the spec: the get accessor of the ROM bank, which is
missing from the sources, returns the stored value. -/
def memory_get_rom_bank (m : Memory) : Nat := m.rom_bank

/-- Modelled from the spec: the get accessor of the RAM bank, which is
missing from the sources, returns the stored value. -/
def memory_get_ram_bank (m : Memory) : Nat := m.ram_bank

/-- The chip-A objects as the C runtime zero-initialises them. -/
def via1_zero : Via1 :=
  { via1registers := List.replicate 16 0, memory := { rom_bank := 0, ram_bank := 0 },
    rand_calls := 0 }

/-- Function `via1_init` (lines 38-46).  `srand(time(NULL))` picks the
sequence `rand()` will return; that sequence is the oracle argument of
`via1_read`, so the call leaves no trace in the state. -/
def via1_init (s : Via1) : Via1 :=
  { s with memory := memory_set_rom_bank (memory_set_ram_bank s.memory 0) 0 }

/-- Function `via1_step` (lines 48-51). -/
def via1_step (s : Via1) : Via1 := s

/-- Function `via1_get_irq_out` (lines 53-57). -/
def via1_get_irq_out (_s : Via1) : Bool := false

/-- Function `via1_read` (lines 59-77): the byte returned and the state after
the call.  `rand k` is the value the `k`-th call of the C library `rand()`
returns.  The function returns `uint8_t`, so the value of every `return`
expression is converted with `u8`. -/
def via1_read (rand : Nat → Nat) (s : Via1) (reg : Nat) : Nat × Via1 :=
  if reg = 0 then (u8 (memory_get_rom_bank s.memory), s)
  else if reg = 1 then (u8 (memory_get_ram_bank s.memory), s)
  else if reg = 4 ∨ reg = 5 ∨ reg = 8 ∨ reg = 9 then
    (u8 (rand s.rand_calls &&& 0xff), { s with rand_calls := s.rand_calls + 1 })
  else (s.via1registers.getD reg 0, s)

/-- Function `via1_write` (lines 79-91). -/
def via1_write (s : Via1) (reg value : Nat) : Via1 :=
  let s1 : Via1 := { s with via1registers := s.via1registers.set reg value }
  if reg = 0 then { s1 with memory := memory_set_rom_bank s1.memory (value &&& 7) }
  else if reg = 1 then { s1 with memory := memory_set_ram_bank s1.memory value }
  else s1

/-! ## VIA#2: the edge detectors in closed form -/

/-- The flag register after `via2_step`, as a function of the flag register,
the stored previous levels and the two clock-out lines before the call: the
two `if` statements of lines 175-184 and 190-196 with their nested
conditions merged. -/
def step_ifr (ifr : Nat) (old_ca1 old_cb1 clk0 clk1 : Bool) : Nat :=
  let a := if old_ca1 && !clk0 then u8 (ifr ||| VIA_IFR_CA1) else ifr
  if old_cb1 && !clk1 then u8 (a ||| VIA_IFR_CB1) else a

/-- The state `via2_started` with the keyboard clock pulled low, before the
tick that samples it. -/
def via2_clk0_falling : Via2 := set_lines via2_started lines_clk0_low

/-! ## States used as concrete inputs -/

/-- The state `via2_started` with the keyboard data line pulled low by the
keyboard, before the tick that samples it. -/
def via2_data0_low : Via2 := set_lines via2_started { lines_high with data_out0 := false }

/-! ## The external input vectors as the specification words them -/

/-- The Port A input vector by bit value: bit 0 the keyboard data line, bit 1
the keyboard clock line, bit 4 and bit 6 the two joystick data lines, bits 2,
3, 5 and 7 fixed high. -/
def spec_pa_input (data_out clk_out joy1 joy2 : Bool) : Nat :=
  b2n data_out + 2 * b2n clk_out + 4 + 8 + 16 * b2n joy1 + 32 + 64 * b2n joy2 + 128

/-- The Port B input vector by bit value: bit 0 the mouse data line, bit 1 the
mouse clock line, bits 2 to 7 fixed high. -/
def spec_pb_input (data_out clk_out : Bool) : Nat :=
  b2n data_out + 2 * b2n clk_out + 4 + 8 + 16 + 32 + 64 + 128

/-! ## Call sequences on chip B -/

/-- One call of the chip-B interface.  A `step` is one tick: the peripherals
put their levels on the lines, then `via2_step` runs. -/
inductive Op where
  | init : Op
  | read (reg : Nat) : Op
  | write (reg value : Nat) : Op
  | step (e : Lines) : Op
  | get_irq_out : Op
deriving DecidableEq, Repr

/-- The state after one call; returned values are dropped. -/
def apply_op (s : Via2) : Op → Via2
  | Op.init => via2_init s
  | Op.read reg => (via2_read s reg).2
  | Op.write reg value => via2_write s reg value
  | Op.step e => tick s e
  | Op.get_irq_out => (via2_get_irq_out s).2

/-- The state after a sequence of calls, in order. -/
def run_ops (s : Via2) (ops : List Op) : Via2 := ops.foldl apply_op s

/-- A call within the contract of the interface: the register index is one of
the sixteen registers and the value written is a byte.  Outside it
`via2registers[reg]` of lines 250 and 257 is an access past the array, which
`via2_read` and `via2_write` do not describe. -/
def Op.valid : Op → Prop
  | Op.init => True
  | Op.read reg => reg < 16
  | Op.write reg value => reg < 16 ∧ value < 256
  | Op.step _ => True
  | Op.get_irq_out => True

instance (op : Op) : Decidable op.valid := by
  cases op <;> unfold Op.valid <;> infer_instance

/-- A sequence of calls within the contract: start-up, enabling every
interrupt source, a falling edge on both clocks, and accesses to the flag and
enable registers. -/
def via2_sample_calls : List Op :=
  [Op.init, Op.step lines_high, Op.write 14 0xff, Op.step lines_clks_low, Op.read 13,
    Op.write 13 0xff, Op.get_irq_out, Op.write 15 0x7f, Op.read 14, Op.read 1]

/-- Chip B after start-up, with Port A bit 1 (the keyboard clock) configured
as an output that drives the line low: `via2_write(3, 2)`, `via2_write(1, 0)`. -/
def via2_chip_pulls_clk0 : Via2 := via2_write (via2_write via2_started 3 2) 1 0

/-! ## Bit-level lemmas -/

theorem testBit_ff (i : Nat) : Nat.testBit 0xff i = decide (i < 8) :=
  Nat.testBit_two_pow_sub_one 8 i

theorem testBit_ffffffff (i : Nat) : Nat.testBit 0xFFFFFFFF i = decide (i < 32) :=
  Nat.testBit_two_pow_sub_one 32 i

theorem testBit_u8 (x i : Nat) : (u8 x).testBit i = (decide (i < 8) && x.testBit i) :=
  Nat.testBit_mod_two_pow x 8 i

theorem testBit_int_not (x i : Nat) :
    (int_not x).testBit i = (decide (i < 32) && !x.testBit i) := by
  unfold int_not
  rw [Nat.testBit_mod_two_pow, Nat.testBit_xor, testBit_ffffffff]
  by_cases h : i < 32 <;> simp [h]

theorem testBit_byte_high {x i : Nat} (hx : x < 256) (hi : 8 ≤ i) : x.testBit i = false := by
  apply Nat.testBit_lt_two_pow
  calc x < 2 ^ 8 := hx
    _ ≤ 2 ^ i := Nat.pow_le_pow_right (by decide) hi

theorem u8_lt (x : Nat) : u8 x < 256 := Nat.mod_lt x (by decide)

theorem u8_of_lt {x : Nat} (hx : x < 256) : u8 x = x := Nat.mod_eq_of_lt hx

theorem or_byte_lt {a b : Nat} (ha : a < 256) (hb : b < 256) : a ||| b < 256 :=
  Nat.or_lt_two_pow (n := 8) ha hb

theorem and_byte_lt {a : Nat} (b : Nat) (ha : a < 256) : a &&& b < 256 :=
  Nat.lt_of_le_of_lt Nat.and_le_left ha

/-! ## C1: pin state resolution -/

/-- C1: for every triple `(in, out, ddr)` - in particular for every triple of
bytes - `via2_state`, which computes in 32-bit `int` and truncates on every
store, returns exactly the 8-bit values of the specification's formulas:
`pinstate = ~(~in | ~driving)` and `readback = (ddr & driving) | (~ddr & pinstate)`
with `driving = (ddr & out) | ~ddr`, all complements taken on 8 bits. -/
theorem via2_state_eq_spec (inp out ddr : Nat) :
    via2_state inp out ddr = (spec_pinstate inp out ddr, spec_readback inp out ddr) := by
  unfold via2_state spec_readback spec_pinstate spec_driving
  refine Prod.ext ?_ ?_ <;> apply Nat.eq_of_testBit_eq <;> intro i <;>
    simp only [testBit_u8, testBit_int_not, Nat.testBit_or, Nat.testBit_and, Nat.testBit_xor,
      testBit_ff, show (256 : Nat) = 2 ^ 8 from rfl, Nat.testBit_mod_two_pow] <;>
    by_cases h : i < 8 <;> simp [h, show i < 8 → i < 32 from fun h => by omega]

/-! ## C2: the edge detectors of `via2_step` -/

theorem via2_step_ifr (s : Via2) :
    (via2_step s).via2ifr =
      step_ifr s.via2ifr s.old_ca1 s.old_cb1 s.ps2_port0.clk_out s.ps2_port1.clk_out := by
  unfold via2_step step_ifr
  cases h0 : s.ps2_port0.clk_out <;> cases h1 : s.ps2_port1.clk_out <;>
    cases h2 : s.old_ca1 <;> cases h3 : s.old_cb1 <;> simp [h0, h1, h2, h3]

theorem via2_step_old_ca1 (s : Via2) : (via2_step s).old_ca1 = s.ps2_port0.clk_out := by
  unfold via2_step
  cases h0 : s.ps2_port0.clk_out <;> cases h1 : s.ps2_port1.clk_out <;>
    cases h2 : s.old_ca1 <;> cases h3 : s.old_cb1 <;> simp [h0, h1, h2, h3]

theorem via2_step_old_cb1 (s : Via2) : (via2_step s).old_cb1 = s.ps2_port1.clk_out := by
  unfold via2_step
  cases h0 : s.ps2_port0.clk_out <;> cases h1 : s.ps2_port1.clk_out <;>
    cases h2 : s.old_ca1 <;> cases h3 : s.old_cb1 <;> simp [h0, h1, h2, h3]

/-- C2: for every chip-B state, `via2_step` leaves the flag register equal to
its prior value, OR-ed with 2 (CA1) exactly when port 0's clock-out was stored
high and is low now, and OR-ed with 16 (CB1) exactly when port 1's clock-out
was stored high and is low now; afterwards the stored previous level of each
line is the level sampled in this step. -/
theorem via2_step_edges (s : Via2) (hs : s.WF) :
    (via2_step s).via2ifr =
        (s.via2ifr ||| (if s.old_ca1 = true ∧ s.ps2_port0.clk_out = false then 2 else 0))
          ||| (if s.old_cb1 = true ∧ s.ps2_port1.clk_out = false then 16 else 0) ∧
      (via2_step s).old_ca1 = s.ps2_port0.clk_out ∧
      (via2_step s).old_cb1 = s.ps2_port1.clk_out := by
  have hi : s.via2ifr < 256 := hs.2.2.1
  refine ⟨?_, via2_step_old_ca1 s, via2_step_old_cb1 s⟩
  rw [via2_step_ifr]
  unfold step_ifr VIA_IFR_CA1 VIA_IFR_CB1
  have h2 : s.via2ifr ||| 2 < 256 := or_byte_lt hi (by decide)
  have h16 : s.via2ifr ||| 16 < 256 := or_byte_lt hi (by decide)
  have h18 : s.via2ifr ||| 2 ||| 16 < 256 := or_byte_lt h2 (by decide)
  cases s.old_ca1 <;> cases s.old_cb1 <;> cases s.ps2_port0.clk_out <;>
    cases s.ps2_port1.clk_out <;> simp [u8_of_lt, h2, h16, h18]

/-- Witness of C2: after start-up with the keyboard clock pulled low, the
hypothesis holds and the step sets CA1 only. -/
theorem via2_step_edges_witness :
    via2_clk0_falling.WF ∧
      ((via2_step via2_clk0_falling).via2ifr =
          (via2_clk0_falling.via2ifr |||
              (if via2_clk0_falling.old_ca1 = true ∧
                  via2_clk0_falling.ps2_port0.clk_out = false then 2 else 0))
            ||| (if via2_clk0_falling.old_cb1 = true ∧
                  via2_clk0_falling.ps2_port1.clk_out = false then 16 else 0) ∧
        (via2_step via2_clk0_falling).old_ca1 = via2_clk0_falling.ps2_port0.clk_out ∧
        (via2_step via2_clk0_falling).old_cb1 = via2_clk0_falling.ps2_port1.clk_out) :=
  ⟨by decide, via2_step_edges via2_clk0_falling (by decide)⟩

theorem testBit_two (i : Nat) : Nat.testBit 2 i = decide (i = 1) := by
  have := @Nat.testBit_two_pow 1 i
  simpa [eq_comm] using this

theorem testBit_sixteen (i : Nat) : Nat.testBit 16 i = decide (i = 4) := by
  have := @Nat.testBit_two_pow 4 i
  simpa [eq_comm] using this

/-! ## C3: a flag is set once per falling edge -/

theorem step_ifr_testBit_ca1 (ifr : Nat) (o1 o2 c0 c1 : Bool) :
    (step_ifr ifr o1 o2 c0 c1).testBit 1 = (ifr.testBit 1 || (o1 && !c0)) := by
  unfold step_ifr VIA_IFR_CA1 VIA_IFR_CB1
  cases o1 <;> cases o2 <;> cases c0 <;> cases c1 <;>
    simp [testBit_u8, Nat.testBit_or, testBit_two, testBit_sixteen]

theorem step_ifr_testBit_cb1 (ifr : Nat) (o1 o2 c0 c1 : Bool) :
    (step_ifr ifr o1 o2 c0 c1).testBit 4 = (ifr.testBit 4 || (o2 && !c1)) := by
  unfold step_ifr VIA_IFR_CA1 VIA_IFR_CB1
  cases o1 <;> cases o2 <;> cases c0 <;> cases c1 <;>
    simp [testBit_u8, Nat.testBit_or, testBit_two, testBit_sixteen]

theorem tick_testBit_ca1 (s : Via2) (e : Lines) :
    (tick s e).via2ifr.testBit 1 = (s.via2ifr.testBit 1 || (s.old_ca1 && !e.clk_out0)) := by
  unfold tick
  rw [via2_step_ifr, step_ifr_testBit_ca1]; rfl

theorem tick_testBit_cb1 (s : Via2) (e : Lines) :
    (tick s e).via2ifr.testBit 4 = (s.via2ifr.testBit 4 || (s.old_cb1 && !e.clk_out1)) := by
  unfold tick
  rw [via2_step_ifr, step_ifr_testBit_cb1]; rfl

theorem tick_old_ca1 (s : Via2) (e : Lines) : (tick s e).old_ca1 = e.clk_out0 := by
  unfold tick; rw [via2_step_old_ca1]; rfl

theorem tick_old_cb1 (s : Via2) (e : Lines) : (tick s e).old_cb1 = e.clk_out1 := by
  unfold tick; rw [via2_step_old_cb1]; rfl

theorem run_low_ca1 (es : List Lines) (hes : ∀ e ∈ es, e.clk_out0 = false) :
    ∀ s : Via2, s.old_ca1 = false → s.via2ifr.testBit 1 = false →
      (run s es).old_ca1 = false ∧ (run s es).via2ifr.testBit 1 = false := by
  induction es with
  | nil => intro s h1 h2; exact ⟨h1, h2⟩
  | cons e es ih =>
    intro s h1 h2
    have he : e.clk_out0 = false := hes e (List.mem_cons_self e es)
    have ih2 := ih (fun x hx => hes x (List.mem_cons_of_mem e hx)) (tick s e)
      (by rw [tick_old_ca1, he]) (by rw [tick_testBit_ca1, h1, h2]; rfl)
    simpa [run] using ih2

theorem run_low_cb1 (es : List Lines) (hes : ∀ e ∈ es, e.clk_out1 = false) :
    ∀ s : Via2, s.old_cb1 = false → s.via2ifr.testBit 4 = false →
      (run s es).old_cb1 = false ∧ (run s es).via2ifr.testBit 4 = false := by
  induction es with
  | nil => intro s h1 h2; exact ⟨h1, h2⟩
  | cons e es ih =>
    intro s h1 h2
    have he : e.clk_out1 = false := hes e (List.mem_cons_self e es)
    have ih2 := ih (fun x hx => hes x (List.mem_cons_of_mem e hx)) (tick s e)
      (by rw [tick_old_cb1, he]) (by rw [tick_testBit_cb1, h1, h2]; rfl)
    simpa [run] using ih2

theorem clear_ca1_testBit (x i : Nat) :
    (u8 (x &&& int_not VIA_IFR_CA1)).testBit i =
      (decide (i < 8) && (x.testBit i && decide (i ≠ 1))) := by
  rw [testBit_u8, Nat.testBit_and, testBit_int_not]
  unfold VIA_IFR_CA1
  rw [testBit_two]
  by_cases h : i < 8
  · have h32 : i < 32 := by omega
    simp [h, h32]
  · simp [h]

theorem clear_cb1_testBit (x i : Nat) :
    (u8 (x &&& int_not VIA_IFR_CB1)).testBit i =
      (decide (i < 8) && (x.testBit i && decide (i ≠ 4))) := by
  rw [testBit_u8, Nat.testBit_and, testBit_int_not]
  unfold VIA_IFR_CB1
  rw [testBit_sixteen]
  by_cases h : i < 8
  · have h32 : i < 32 := by omega
    simp [h, h32]
  · simp [h]

theorem via2_read1_ifr (s : Via2) :
    (via2_read s 1).2.via2ifr = u8 (s.via2ifr &&& int_not VIA_IFR_CA1) := rfl

theorem via2_read0_ifr (s : Via2) :
    (via2_read s 0).2.via2ifr = u8 (s.via2ifr &&& int_not VIA_IFR_CB1) := rfl

theorem via2_read1_old_ca1 (s : Via2) : (via2_read s 1).2.old_ca1 = s.old_ca1 := rfl

theorem via2_read0_old_cb1 (s : Via2) : (via2_read s 0).2.old_cb1 = s.old_cb1 := rfl

/-- C3: once a monitored clock line has been sampled low by `via2_step` and
its flag has been cleared by reading the associated port register (register 1
for CA1 on port 0, register 0 for CB1 on port 1), any number of further ticks
with the line still low leave the flag clear, and a following tick with the
line high and then one with the line low set the flag again. -/
theorem flag_set_once_per_falling_edge (s : Via2) (e0 eh el : Lines) (es : List Lines) :
    (e0.clk_out0 = false → (∀ e ∈ es, e.clk_out0 = false) →
        eh.clk_out0 = true → el.clk_out0 = false →
        (run (via2_read (tick s e0) 1).2 es).via2ifr.testBit 1 = false ∧
        (tick (tick (run (via2_read (tick s e0) 1).2 es) eh) el).via2ifr.testBit 1 = true) ∧
    (e0.clk_out1 = false → (∀ e ∈ es, e.clk_out1 = false) →
        eh.clk_out1 = true → el.clk_out1 = false →
        (run (via2_read (tick s e0) 0).2 es).via2ifr.testBit 4 = false ∧
        (tick (tick (run (via2_read (tick s e0) 0).2 es) eh) el).via2ifr.testBit 4 = true) := by
  constructor
  · intro h0 hes hh hl
    have hr := run_low_ca1 es hes (via2_read (tick s e0) 1).2
      (by rw [via2_read1_old_ca1, tick_old_ca1, h0])
      (by rw [via2_read1_ifr, clear_ca1_testBit]; simp)
    refine ⟨hr.2, ?_⟩
    rw [tick_testBit_ca1, tick_old_ca1, hh, hl]; simp
  · intro h0 hes hh hl
    have hr := run_low_cb1 es hes (via2_read (tick s e0) 0).2
      (by rw [via2_read0_old_cb1, tick_old_cb1, h0])
      (by rw [via2_read0_ifr, clear_cb1_testBit]; simp)
    refine ⟨hr.2, ?_⟩
    rw [tick_testBit_cb1, tick_old_cb1, hh, hl]; simp

/-- Witness of C3: from the started chip, both clock lines fall, each flag is
read away, the lines stay low for two ticks, rise and fall again. -/
theorem flag_set_once_per_falling_edge_witness :
    ((run (via2_read (tick via2_started lines_clks_low) 1).2
          [lines_clks_low, lines_clks_low]).via2ifr.testBit 1 = false ∧
      (tick (tick (run (via2_read (tick via2_started lines_clks_low) 1).2
          [lines_clks_low, lines_clks_low]) lines_high) lines_clks_low).via2ifr.testBit 1
        = true) ∧
    ((run (via2_read (tick via2_started lines_clks_low) 0).2
          [lines_clks_low, lines_clks_low]).via2ifr.testBit 4 = false ∧
      (tick (tick (run (via2_read (tick via2_started lines_clks_low) 0).2
          [lines_clks_low, lines_clks_low]) lines_high) lines_clks_low).via2ifr.testBit 4
        = true) :=
  ⟨(flag_set_once_per_falling_edge via2_started lines_clks_low lines_high lines_clks_low
      [lines_clks_low, lines_clks_low]).1 rfl (by decide) rfl rfl,
   (flag_set_once_per_falling_edge via2_started lines_clks_low lines_high lines_clks_low
      [lines_clks_low, lines_clks_low]).2 rfl (by decide) rfl rfl⟩



/-! ## C4: what clears a flag -/

theorem via2_write_ifr_testBit_ca1 (s : Via2) (reg v : Nat) (h : reg ≠ 1) :
    (via2_write s reg v).via2ifr.testBit 1 = s.via2ifr.testBit 1 := by
  unfold via2_write
  by_cases h0 : reg = 0
  · subst h0; simp [clear_cb1_testBit]
  · by_cases h2 : reg = 2
    · subst h2; simp
    · by_cases h3 : reg = 3
      · subst h3; simp
      · by_cases h13 : reg = 13
        · subst h13; simp
        · by_cases h14 : reg = 14
          · subst h14; by_cases hv : v &&& 0x80 = 0 <;> simp [hv]
          · simp [h, h0, h2, h3, h13, h14]

theorem via2_write_ifr_testBit_cb1 (s : Via2) (reg v : Nat) (h : reg ≠ 0) :
    (via2_write s reg v).via2ifr.testBit 4 = s.via2ifr.testBit 4 := by
  unfold via2_write
  by_cases h1 : reg = 1
  · subst h1; simp [clear_ca1_testBit]
  · by_cases h2 : reg = 2
    · subst h2; simp
    · by_cases h3 : reg = 3
      · subst h3; simp
      · by_cases h13 : reg = 13
        · subst h13; simp
        · by_cases h14 : reg = 14
          · subst h14; by_cases hv : v &&& 0x80 = 0 <;> simp [hv]
          · simp [h, h1, h2, h3, h13, h14]

theorem via2_read_ifr_other (s : Via2) (reg : Nat) (h0 : reg ≠ 0) (h1 : reg ≠ 1) :
    (via2_read s reg).2 = s := by
  unfold via2_read
  simp only [h0, h1, if_false]
  split_ifs <;> rfl

theorem via2_get_irq_out_ifr (s : Via2) : (via2_get_irq_out s).2.via2ifr = s.via2ifr := by
  unfold via2_get_irq_out
  split_ifs <;> rfl

theorem via2_get_irq_out_ier (s : Via2) : (via2_get_irq_out s).2.via2ier = s.via2ier := by
  unfold via2_get_irq_out
  split_ifs <;> rfl

/-- C4, the claim as stated fails: with CA1 and CB1 both pending, a write to
register 1 clears CA1 and a write to register 0 clears CB1. -/
theorem write_to_port_register_clears_flag :
    via2_both_pending.WF ∧
      via2_both_pending.via2ifr.testBit 1 = true ∧
      (via2_write via2_both_pending 1 0).via2ifr.testBit 1 = false ∧
      via2_both_pending.via2ifr.testBit 4 = true ∧
      (via2_write via2_both_pending 0 0).via2ifr.testBit 4 = false := by
  decide

/-- C4 as amended: a set CA1 (CB1) flag is cleared only by `via2_read` or
`via2_write` of register 1 (register 0).  `via2_write` with any other index
0-15 and any value, `via2_read` of any other index, `via2_step` and
`via2_get_irq_out` leave a flag bit that was set still set. -/
theorem flag_survives_other_accesses (s : Via2) (reg v : Nat) (hreg : reg < 16) :
    (s.via2ifr.testBit 1 = true →
      (reg ≠ 1 → (via2_write s reg v).via2ifr.testBit 1 = true) ∧
      (reg ≠ 1 → (via2_read s reg).2.via2ifr.testBit 1 = true) ∧
      (via2_step s).via2ifr.testBit 1 = true ∧
      (via2_get_irq_out s).2.via2ifr.testBit 1 = true) ∧
    (s.via2ifr.testBit 4 = true →
      (reg ≠ 0 → (via2_write s reg v).via2ifr.testBit 4 = true) ∧
      (reg ≠ 0 → (via2_read s reg).2.via2ifr.testBit 4 = true) ∧
      (via2_step s).via2ifr.testBit 4 = true ∧
      (via2_get_irq_out s).2.via2ifr.testBit 4 = true) := by
  constructor
  · intro hset
    refine ⟨fun h => ?_, fun h => ?_, ?_, ?_⟩
    · rw [via2_write_ifr_testBit_ca1 s reg v h, hset]
    · by_cases h0 : reg = 0
      · subst h0; rw [via2_read0_ifr, clear_cb1_testBit, hset]; rfl
      · rw [via2_read_ifr_other s reg h0 h, hset]
    · rw [via2_step_ifr, step_ifr_testBit_ca1, hset]; rfl
    · rw [via2_get_irq_out_ifr, hset]
  · intro hset
    refine ⟨fun h => ?_, fun h => ?_, ?_, ?_⟩
    · rw [via2_write_ifr_testBit_cb1 s reg v h, hset]
    · by_cases h1 : reg = 1
      · subst h1; rw [via2_read1_ifr, clear_ca1_testBit, hset]; rfl
      · rw [via2_read_ifr_other s reg h h1, hset]
    · rw [via2_step_ifr, step_ifr_testBit_cb1, hset]; rfl
    · rw [via2_get_irq_out_ifr, hset]

/-- Witness of C4 as amended: with both flags pending, a write of 0xff to the
direction register 2, a read of it, a step and an interrupt poll keep both. -/
theorem flag_survives_other_accesses_witness :
    ((via2_write via2_both_pending 2 0xff).via2ifr.testBit 1 = true ∧
      (via2_read via2_both_pending 2).2.via2ifr.testBit 1 = true ∧
      (via2_step via2_both_pending).via2ifr.testBit 1 = true ∧
      (via2_get_irq_out via2_both_pending).2.via2ifr.testBit 1 = true) ∧
    ((via2_write via2_both_pending 2 0xff).via2ifr.testBit 4 = true ∧
      (via2_read via2_both_pending 2).2.via2ifr.testBit 4 = true ∧
      (via2_step via2_both_pending).via2ifr.testBit 4 = true ∧
      (via2_get_irq_out via2_both_pending).2.via2ifr.testBit 4 = true) :=
  ⟨⟨((flag_survives_other_accesses via2_both_pending 2 0xff (by decide)).1 (by decide)).1
        (by decide),
      ((flag_survives_other_accesses via2_both_pending 2 0xff (by decide)).1 (by decide)).2.1
        (by decide),
      ((flag_survives_other_accesses via2_both_pending 2 0xff (by decide)).1 (by decide)).2.2⟩,
    ⟨((flag_survives_other_accesses via2_both_pending 2 0xff (by decide)).2 (by decide)).1
        (by decide),
      ((flag_survives_other_accesses via2_both_pending 2 0xff (by decide)).2 (by decide)).2.1
        (by decide),
      ((flag_survives_other_accesses via2_both_pending 2 0xff (by decide)).2 (by decide)).2.2⟩⟩

/-! ## C5: reading a port register clears its flag -/

/-- C5: for every chip-B state, `via2_read(0)` leaves the flag register equal
to its prior value with bit 4 (value 16, CB1) cleared and every other bit
unchanged, and `via2_read(1)` leaves it equal to its prior value with bit 1
(value 2, CA1) cleared and every other bit unchanged, whatever the flag was
before. -/
theorem via2_read_port_clears_own_flag (s : Via2) (hs : s.WF) :
    (∀ i, (via2_read s 0).2.via2ifr.testBit i = (s.via2ifr.testBit i && decide (i ≠ 4))) ∧
    (∀ i, (via2_read s 1).2.via2ifr.testBit i = (s.via2ifr.testBit i && decide (i ≠ 1))) := by
  have hi : s.via2ifr < 256 := hs.2.2.1
  constructor
  · intro i
    rw [via2_read0_ifr, clear_cb1_testBit]
    by_cases h : i < 8
    · simp [h]
    · simp [h, testBit_byte_high hi (Nat.le_of_not_lt h)]
  · intro i
    rw [via2_read1_ifr, clear_ca1_testBit]
    by_cases h : i < 8
    · simp [h]
    · simp [h, testBit_byte_high hi (Nat.le_of_not_lt h)]

/-- Witness of C5: the state with both flags pending. -/
theorem via2_read_port_clears_own_flag_witness :
    via2_both_pending.WF ∧
    ((∀ i, (via2_read via2_both_pending 0).2.via2ifr.testBit i
        = (via2_both_pending.via2ifr.testBit i && decide (i ≠ 4))) ∧
     (∀ i, (via2_read via2_both_pending 1).2.via2ifr.testBit i
        = (via2_both_pending.via2ifr.testBit i && decide (i ≠ 1)))) :=
  ⟨by decide, via2_read_port_clears_own_flag via2_both_pending (by decide)⟩

/-! ## C6: the enable register -/

theorem and_0x80_ne_zero (v : Nat) : v &&& 0x80 ≠ 0 ↔ v.testBit 7 = true := by
  have h := Nat.and_two_pow v 7
  norm_num at h
  rw [h]
  cases v.testBit 7 <;> simp

theorem via2_write_ier_eq (s : Via2) (v : Nat) :
    (via2_write s 14 v).via2ier =
      if v &&& 0x80 ≠ 0 then u8 (s.via2ier ||| (v &&& 0x7f))
      else u8 (s.via2ier &&& int_not (v &&& 0x7f)) := by
  unfold via2_write
  by_cases hv : v &&& 0x80 = 0 <;> simp [hv]

theorem and_int_not_byte {a : Nat} (b : Nat) (ha : a < 256) :
    u8 (a &&& int_not b) = a &&& (b ^^^ 0xff) := by
  apply Nat.eq_of_testBit_eq
  intro i
  rw [testBit_u8, Nat.testBit_and, testBit_int_not, Nat.testBit_and, Nat.testBit_xor, testBit_ff]
  by_cases h : i < 8
  · have h32 : i < 32 := by omega
    simp [h, h32]
  · simp [h, testBit_byte_high ha (Nat.le_of_not_lt h)]

/-- C6: for every chip-B state and every byte `v`, `via2_write(14, v)` leaves
the enable register equal to `ier | (v & 0x7f)` when bit 7 of `v` is 1 and to
`ier & ~(v & 0x7f)` (complement on 8 bits) when bit 7 of `v` is 0, and a
following `via2_read(14)` returns exactly that value. -/
theorem via2_write_ier (s : Via2) (v : Nat) (hs : s.WF) (hv : v < 256) :
    (via2_write s 14 v).via2ier =
        (if v.testBit 7 = true then s.via2ier ||| (v &&& 0x7f)
         else s.via2ier &&& ((v &&& 0x7f) ^^^ 0xff)) ∧
      (via2_read (via2_write s 14 v) 14).1 = (via2_write s 14 v).via2ier := by
  have he : s.via2ier < 256 := hs.2.2.2.1
  refine ⟨?_, rfl⟩
  rw [via2_write_ier_eq]
  by_cases h7 : v.testBit 7 = true
  · rw [if_pos ((and_0x80_ne_zero v).2 h7), if_pos h7]
    exact u8_of_lt (or_byte_lt he (and_byte_lt _ hv))
  · rw [if_neg (fun h => h7 ((and_0x80_ne_zero v).1 h)), if_neg h7]
    exact and_int_not_byte _ he

/-- Witness of C6: writing 0x82 to the enable register of the started chip
enables CA1, and the register reads back as 2. -/
theorem via2_write_ier_witness :
    (via2_write via2_started 14 0x82).via2ier = 2 ∧
      (via2_read (via2_write via2_started 14 0x82) 14).1 = 2 :=
  ⟨(via2_write_ier via2_started 0x82 (by decide) (by decide)).1.trans (by decide),
   ((via2_write_ier via2_started 0x82 (by decide) (by decide)).2).trans (by decide)⟩

/-! ## C7: the interrupt output -/

/-- C7: for every pair of flag-register and enable-register values,
`via2_get_irq_out` returns true exactly when `flags & enable` is non-zero, and
it changes neither register. -/
theorem via2_get_irq_out_spec (s : Via2) :
    ((via2_get_irq_out s).1 = true ↔ s.via2ifr &&& s.via2ier ≠ 0) ∧
      (via2_get_irq_out s).2.via2ifr = s.via2ifr ∧
      (via2_get_irq_out s).2.via2ier = s.via2ier := by
  refine ⟨?_, via2_get_irq_out_ifr s, via2_get_irq_out_ier s⟩
  unfold via2_get_irq_out nonzero
  split_ifs <;> simp

/-! ## C8: reading the flag register -/

/-- C8: for every chip-B state, `via2_read(13)` returns the stored flag
register with bit 7 set when the stored value is non-zero and 0 when it is
zero, and the read leaves every chip-B object unchanged. -/
theorem via2_read_ifr (s : Via2) (hs : s.WF) :
    (via2_read s 13).1 = (if s.via2ifr ≠ 0 then s.via2ifr ||| 0x80 else 0) ∧
      (via2_read s 13).2 = s := by
  have hi : s.via2ifr < 256 := hs.2.2.1
  refine ⟨?_, rfl⟩
  unfold via2_read
  by_cases h : s.via2ifr = 0
  · simp [h]
  · simp [h, u8_of_lt (or_byte_lt hi (by decide : 128 < 256))]

/-- Witness of C8: with CA1 and CB1 pending the flag register reads 0x92. -/
theorem via2_read_ifr_witness :
    (via2_read via2_both_pending 13).1 = 0x92 ∧
      (via2_read via2_both_pending 13).2 = via2_both_pending :=
  ⟨(via2_read_ifr via2_both_pending (by decide)).1.trans (by decide),
   (via2_read_ifr via2_both_pending (by decide)).2⟩

/-! ## C9: writing the flag register -/

/-- C9: for every chip-B state and every byte `v`, `via2_write(13, v)` changes
nothing but raw storage slot 13, which takes the value `v`: the flag register,
the enable register, both direction registers and both output latches are
unchanged, and a following `via2_read(13)` reports the old flags. -/
theorem via2_write_ifr_ignored (s : Via2) (v : Nat) (hs : s.WF) :
    via2_write s 13 v = { s with via2registers := s.via2registers.set 13 v } ∧
      (via2_write s 13 v).via2registers.getD 13 0 = v ∧
      (∀ r, r ≠ 13 → (via2_write s 13 v).via2registers.getD r 0 = s.via2registers.getD r 0) ∧
      (via2_write s 13 v).via2ifr = s.via2ifr ∧
      (via2_write s 13 v).via2ier = s.via2ier ∧
      (via2_write s 13 v).via2ddra = s.via2ddra ∧
      (via2_write s 13 v).via2ddrb = s.via2ddrb ∧
      (via2_write s 13 v).via2pa_out = s.via2pa_out ∧
      (via2_write s 13 v).via2pb_out = s.via2pb_out ∧
      (via2_read (via2_write s 13 v) 13).1 = (via2_read s 13).1 := by
  have hl : s.via2registers.length = 16 := hs.1
  have hw : via2_write s 13 v = { s with via2registers := s.via2registers.set 13 v } := by
    unfold via2_write; simp
  refine ⟨hw, ?_, ?_, ?_⟩
  · rw [hw]
    simp [List.getD_eq_getElem?_getD, List.getElem?_set, hl]
  · intro r hr
    rw [hw]
    simp [List.getD_eq_getElem?_getD, List.getElem?_set, Ne.symm hr]
  · rw [hw]
    exact ⟨rfl, rfl, rfl, rfl, rfl, rfl, rfl⟩

/-- Witness of C9: with both flags pending, writing 0 to register 13 leaves
the flag register at 18 and `via2_read(13)` at 0x92. -/
theorem via2_write_ifr_ignored_witness :
    via2_both_pending.WF ∧
      (via2_write via2_both_pending 13 0).via2ifr = 18 ∧
      (via2_read (via2_write via2_both_pending 13 0) 13).1 = 0x92 :=
  ⟨by decide,
   (via2_write_ifr_ignored via2_both_pending 0 (by decide)).2.2.2.1.trans (by decide),
   (via2_write_ifr_ignored via2_both_pending 0 (by decide)).2.2.2.2.2.2.2.2.2.trans (by decide)⟩

/-! ## C10: the bank registers of chip A -/

/-- C10: with the bank selector holding two values behind get/set accessors,
for every byte `v`: after `via1_write(0, v)` the ROM bank getter and
`via1_read(0)` both return `v & 7` and the RAM bank is unchanged; after
`via1_write(1, v)` the RAM bank getter and `via1_read(1)` both return `v` and
the ROM bank is unchanged. -/
theorem via1_bank_registers (rand : Nat → Nat) (s : Via1) (v : Nat) (hv : v < 256) :
    (memory_get_rom_bank (via1_write s 0 v).memory = v &&& 7 ∧
      (via1_read rand (via1_write s 0 v) 0).1 = v &&& 7 ∧
      memory_get_ram_bank (via1_write s 0 v).memory = memory_get_ram_bank s.memory) ∧
    (memory_get_ram_bank (via1_write s 1 v).memory = v ∧
      (via1_read rand (via1_write s 1 v) 1).1 = v ∧
      memory_get_rom_bank (via1_write s 1 v).memory = memory_get_rom_bank s.memory) := by
  refine ⟨⟨rfl, ?_, rfl⟩, ⟨rfl, ?_, rfl⟩⟩
  · show u8 (v &&& 7) = v &&& 7
    exact u8_of_lt (and_byte_lt 7 hv)
  · show u8 v = v
    exact u8_of_lt hv

/-- Witness of C10: after `via1_init`, writing 0x05 to register 0 makes the
ROM bank getter return 5, and writing 0xAB to register 1 makes the RAM bank
getter return 0xAB. -/
theorem via1_bank_registers_witness :
    memory_get_rom_bank (via1_write (via1_init via1_zero) 0 0x05).memory = 5 ∧
      memory_get_ram_bank
          (via1_write (via1_write (via1_init via1_zero) 0 0x05) 1 0xAB).memory = 0xAB :=
  ⟨(via1_bank_registers (fun _ => 0) (via1_init via1_zero) 0x05 (by decide)).1.1.trans
      (by decide),
   (via1_bank_registers (fun _ => 0) (via1_write (via1_init via1_zero) 0 0x05) 0xAB
      (by decide)).2.1⟩


/-! ## C11: writing the pin state back to the peripherals -/

/-- C11, the code at a failing input: after start-up the keyboard pulls its
data line low; the resolved Port A pin state is 0xFE, bit 0 is low, and
`via2_step` still stores a high `data_in`, because `!!(pinstate >> 0)` tests
the whole byte.  In the same way, with the keyboard clock pulled low the pin
state is 0xFD, bit 1 is low, and `clk_in` is stored high. -/
theorem via2_step_data_in_is_not_bit0 :
    (via2_step via2_data0_low).via2pa_pinstate = 0xFE ∧
      (via2_step via2_data0_low).via2pa_pinstate.testBit 0 = false ∧
      (via2_step via2_data0_low).ps2_port0.data_in = true ∧
      (via2_step via2_clk0_falling).via2pa_pinstate = 0xFD ∧
      (via2_step via2_clk0_falling).via2pa_pinstate.testBit 1 = false ∧
      (via2_step via2_clk0_falling).ps2_port0.clk_in = true := by
  decide

/-! ## C12: the first tick raises no interrupt -/

theorem step_ifr_zero (c0 c1 : Bool) : step_ifr 0 false false c0 c1 = 0 := by
  cases c0 <;> cases c1 <;> rfl

/-- C12: starting from the zero-initialised chip-B statics, after `via2_init`
and one `via2_step`, `via2_read(13)` returns 0 and `via2_get_irq_out` returns
false.  This holds for every level of the peripheral and joystick lines, in
particular with the clock-out and data-out lines of both ports high. -/
theorem via2_first_step_no_interrupt (p0 p1 : Ps2Port) (j : Joystick) :
    (via2_read (via2_step (via2_init (via2_zero p0 p1 j))) 13).1 = 0 ∧
      (via2_get_irq_out (via2_step (via2_init (via2_zero p0 p1 j)))).1 = false := by
  have h : (via2_step (via2_init (via2_zero p0 p1 j))).via2ifr = 0 := by
    rw [via2_step_ifr]; exact step_ifr_zero _ _
  constructor
  · unfold via2_read; simp [h]
  · unfold via2_get_irq_out nonzero
    split_ifs <;> simp [h]

/-! ## C13: registers without listed semantics -/

theorem getD_set_self (l : List Nat) (r v : Nat) (h : r < l.length) :
    (l.set r v).getD r 0 = v := by
  simp [List.getD_eq_getElem?_getD, List.getElem?_set, h]

theorem getD_set_other (l : List Nat) (r q v : Nat) (h : q ≠ r) :
    (l.set r v).getD q 0 = l.getD q 0 := by
  simp [List.getD_eq_getElem?_getD, List.getElem?_set, Ne.symm h]

theorem via2_write_unlisted (s : Via2) (reg v : Nat)
    (h : (4 ≤ reg ∧ reg ≤ 12) ∨ reg = 15) :
    via2_write s reg v = { s with via2registers := s.via2registers.set reg v } := by
  have h0 : reg ≠ 0 := by omega
  have h1 : reg ≠ 1 := by omega
  have h2 : reg ≠ 2 := by omega
  have h3 : reg ≠ 3 := by omega
  have h13 : reg ≠ 13 := by omega
  have h14 : reg ≠ 14 := by omega
  unfold via2_write
  simp [h0, h1, h2, h3, h13, h14]

theorem via2_read_unlisted (s : Via2) (reg : Nat)
    (h : (4 ≤ reg ∧ reg ≤ 12) ∨ reg = 15) :
    via2_read s reg = (s.via2registers.getD reg 0, s) := by
  have h0 : reg ≠ 0 := by omega
  have h1 : reg ≠ 1 := by omega
  have h2 : reg ≠ 2 := by omega
  have h3 : reg ≠ 3 := by omega
  have h13 : reg ≠ 13 := by omega
  have h14 : reg ≠ 14 := by omega
  unfold via2_read
  simp [h0, h1, h2, h3, h13, h14]

theorem via1_write_unlisted (s : Via1) (reg v : Nat) (h0 : reg ≠ 0) (h1 : reg ≠ 1) :
    via1_write s reg v = { s with via1registers := s.via1registers.set reg v } := by
  unfold via1_write
  simp [h0, h1]

theorem via1_read_unlisted (rand : Nat → Nat) (s : Via1) (reg : Nat)
    (h : reg = 2 ∨ reg = 3 ∨ reg = 6 ∨ reg = 7 ∨ (10 ≤ reg ∧ reg ≤ 15)) :
    via1_read rand s reg = (s.via1registers.getD reg 0, s) := by
  have h0 : reg ≠ 0 := by omega
  have h1 : reg ≠ 1 := by omega
  have h4 : ¬ (reg = 4 ∨ reg = 5 ∨ reg = 8 ∨ reg = 9) := by omega
  unfold via1_read
  simp [h0, h1, h4]

/-- C13: for every register index with no listed semantics (chip B: 4-12 and
15; chip A: 2, 3, 6, 7 and 10-15) and every value `v`, a write of `v` to that
index followed by a read of the same index returns `v`, and the write changes
nothing but that storage slot: every other object of the chip, and every
other slot, is as before. -/
theorem unlisted_registers_are_storage (rand : Nat → Nat) (b : Via2) (a : Via1)
    (reg v : Nat) (hb : b.WF) (ha : a.WF) :
    ((4 ≤ reg ∧ reg ≤ 12) ∨ reg = 15 →
      (via2_read (via2_write b reg v) reg).1 = v ∧
      via2_write b reg v = { b with via2registers := b.via2registers.set reg v } ∧
      (∀ q, q ≠ reg →
        (via2_write b reg v).via2registers.getD q 0 = b.via2registers.getD q 0) ∧
      (via2_write b reg v).via2ifr = b.via2ifr ∧
      (via2_write b reg v).via2ier = b.via2ier ∧
      (via2_write b reg v).via2ddra = b.via2ddra ∧
      (via2_write b reg v).via2ddrb = b.via2ddrb ∧
      (via2_write b reg v).via2pa_out = b.via2pa_out ∧
      (via2_write b reg v).via2pb_out = b.via2pb_out ∧
      (via2_write b reg v).via2pa_pinstate = b.via2pa_pinstate ∧
      (via2_write b reg v).via2pb_pinstate = b.via2pb_pinstate ∧
      (via2_write b reg v).via2pa_readback = b.via2pa_readback ∧
      (via2_write b reg v).via2pb_readback = b.via2pb_readback) ∧
    (reg = 2 ∨ reg = 3 ∨ reg = 6 ∨ reg = 7 ∨ (10 ≤ reg ∧ reg ≤ 15) →
      (via1_read rand (via1_write a reg v) reg).1 = v ∧
      via1_write a reg v = { a with via1registers := a.via1registers.set reg v } ∧
      (∀ q, q ≠ reg →
        (via1_write a reg v).via1registers.getD q 0 = a.via1registers.getD q 0) ∧
      memory_get_rom_bank (via1_write a reg v).memory = memory_get_rom_bank a.memory ∧
      memory_get_ram_bank (via1_write a reg v).memory = memory_get_ram_bank a.memory) := by
  constructor
  · intro h
    have hw := via2_write_unlisted b reg v h
    have hlen : reg < b.via2registers.length := by rw [hb.1]; omega
    refine ⟨?_, hw, ?_, ?_⟩
    · rw [via2_read_unlisted _ reg h, hw]
      exact getD_set_self _ _ _ hlen
    · intro q hq
      rw [hw]
      exact getD_set_other _ _ _ _ hq
    · rw [hw]
      exact ⟨rfl, rfl, rfl, rfl, rfl, rfl, rfl, rfl, rfl, rfl⟩
  · intro h
    have hw := via1_write_unlisted a reg v (by omega) (by omega)
    have hlen : reg < a.via1registers.length := by rw [ha.1]; omega
    refine ⟨?_, hw, ?_, ?_⟩
    · rw [via1_read_unlisted rand _ reg h, hw]
      exact getD_set_self _ _ _ hlen
    · intro q hq
      rw [hw]
      exact getD_set_other _ _ _ _ hq
    · rw [hw]
      exact ⟨rfl, rfl⟩

/-- Witness of C13: register 15 takes 0xAB on both chips; on chip B with both
flags pending, on chip A after `via1_init`. -/
theorem unlisted_registers_are_storage_witness :
    (via2_read (via2_write via2_both_pending 15 0xAB) 15).1 = 0xAB ∧
      (via2_write via2_both_pending 15 0xAB).via2ifr = via2_both_pending.via2ifr ∧
      (via1_read (fun _ => 0) (via1_write (via1_init via1_zero) 15 0xAB) 15).1 = 0xAB :=
  ⟨((unlisted_registers_are_storage (fun _ => 0) via2_both_pending (via1_init via1_zero)
      15 0xAB (by decide) (by decide)).1 (by decide)).1,
   ((unlisted_registers_are_storage (fun _ => 0) via2_both_pending (via1_init via1_zero)
      15 0xAB (by decide) (by decide)).1 (by decide)).2.2.2.1,
   ((unlisted_registers_are_storage (fun _ => 0) via2_both_pending (via1_init via1_zero)
      15 0xAB (by decide) (by decide)).2 (by decide)).1⟩

/-! ## C14 and C15: the resolved lines, bit by bit -/

theorem via2_state_pinstate_testBit (inp out ddr i : Nat) :
    (via2_state inp out ddr).1.testBit i =
      (decide (i < 8) && (inp.testBit i && (!ddr.testBit i || out.testBit i))) := by
  unfold via2_state
  simp only [testBit_u8, testBit_int_not, Nat.testBit_or, Nat.testBit_and]
  by_cases h : i < 8
  · have h32 : i < 32 := by omega
    cases inp.testBit i <;> cases ddr.testBit i <;> cases out.testBit i <;> simp [h, h32]
  · simp [h]

theorem via2_state_readback_testBit (inp out ddr i : Nat) :
    (via2_state inp out ddr).2.testBit i =
      (decide (i < 8) && (if ddr.testBit i then out.testBit i else inp.testBit i)) := by
  unfold via2_state
  simp only [testBit_u8, testBit_int_not, Nat.testBit_or, Nat.testBit_and]
  by_cases h : i < 8
  · have h32 : i < 32 := by omega
    cases inp.testBit i <;> cases ddr.testBit i <;> cases out.testBit i <;> simp [h, h32]
  · simp [h]

/-- C14: for every `(in, out, ddr)` and every bit position `i` in 0..7, bit
`i` of the pin state computed by `via2_state` is high exactly when bit `i` of
`in` is high and the chip is not pulling the line (bit `i` of `ddr` is 0, or
bit `i` of `out` is 1); the pin state is `in & (out | ~ddr)` truncated to 8
bits; and bit `i` depends only on bit `i` of `in`, `out` and `ddr`. -/
theorem via2_state_pinstate_bitwise (inp out ddr i : Nat) (hi : i < 8) :
    ((via2_state inp out ddr).1.testBit i = true ↔
        inp.testBit i = true ∧ (ddr.testBit i = false ∨ out.testBit i = true)) ∧
      (via2_state inp out ddr).1 = (inp &&& (out ||| (ddr ^^^ 0xff))) % 256 ∧
      (∀ inp2 out2 ddr2 : Nat, inp2.testBit i = inp.testBit i →
        out2.testBit i = out.testBit i → ddr2.testBit i = ddr.testBit i →
        (via2_state inp2 out2 ddr2).1.testBit i = (via2_state inp out ddr).1.testBit i) := by
  refine ⟨?_, ?_, ?_⟩
  · rw [via2_state_pinstate_testBit]
    cases inp.testBit i <;> cases ddr.testBit i <;> cases out.testBit i <;> simp [hi]
  · apply Nat.eq_of_testBit_eq
    intro k
    rw [via2_state_pinstate_testBit, show (256 : Nat) = 2 ^ 8 from rfl,
      Nat.testBit_mod_two_pow, Nat.testBit_and, Nat.testBit_or, Nat.testBit_xor, testBit_ff]
    by_cases h : k < 8
    · cases inp.testBit k <;> cases ddr.testBit k <;> cases out.testBit k <;> simp [h]
    · simp [h]
  · intro inp2 out2 ddr2 h1 h2 h3
    rw [via2_state_pinstate_testBit, via2_state_pinstate_testBit, h1, h2, h3]

/-- Witness of C14: the chip drives bit 1 low (`ddr` bit 1 set, `out` bit 1
clear) against a high input; bit 1 of the pin state is low. -/
theorem via2_state_pinstate_bitwise_witness :
    (1 : Nat) < 8 ∧ (via2_state 0xff 0x00 0x02).1 = (0xff &&& (0x00 ||| (0x02 ^^^ 0xff))) % 256 :=
  ⟨by decide, (via2_state_pinstate_bitwise 0xff 0x00 0x02 1 (by decide)).2.1⟩

/-- C15: for every `(in, out, ddr)` and every bit position `i` in 0..7, bit
`i` of the readback computed by `via2_state` equals bit `i` of `out` when bit
`i` of `ddr` is 1, and equals bit `i` of the resolved pin state, which is then
bit `i` of `in`, when bit `i` of `ddr` is 0; the readback is
`(ddr & out) | (~ddr & in)` on 8 bits. -/
theorem via2_state_readback_bitwise (inp out ddr i : Nat) (hi : i < 8) :
    (ddr.testBit i = true →
        (via2_state inp out ddr).2.testBit i = out.testBit i) ∧
      (ddr.testBit i = false →
        (via2_state inp out ddr).2.testBit i = (via2_state inp out ddr).1.testBit i ∧
        (via2_state inp out ddr).1.testBit i = inp.testBit i) ∧
      (via2_state inp out ddr).2 = ((ddr &&& out) ||| ((ddr ^^^ 0xff) &&& inp)) % 256 := by
  refine ⟨?_, ?_, ?_⟩
  · intro h
    rw [via2_state_readback_testBit, h]; simp [hi]
  · intro h
    rw [via2_state_readback_testBit, via2_state_pinstate_testBit, h]; simp [hi]
  · apply Nat.eq_of_testBit_eq
    intro k
    rw [via2_state_readback_testBit, show (256 : Nat) = 2 ^ 8 from rfl,
      Nat.testBit_mod_two_pow, Nat.testBit_or, Nat.testBit_and, Nat.testBit_and,
      Nat.testBit_xor, testBit_ff]
    by_cases h : k < 8
    · cases inp.testBit k <;> cases ddr.testBit k <;> cases out.testBit k <;> simp [h]
    · simp [h]

/-- Witness of C15: low nibble output, high nibble input. -/
theorem via2_state_readback_bitwise_witness :
    (0 : Nat) < 8 ∧
      (via2_state 0x55 0xAA 0x0F).2 = ((0x0F &&& 0xAA) ||| ((0x0F ^^^ 0xff) &&& 0x55)) % 256 :=
  ⟨by decide, (via2_state_readback_bitwise 0x55 0xAA 0x0F 0 (by decide)).2.2⟩


/-! ## C16: what a port register read returns after a step -/

theorem pa_in_eq_spec (s : Via2) :
    pa_in s = spec_pa_input s.ps2_port0.data_out s.ps2_port0.clk_out
      s.joystick.joystick1_data s.joystick.joystick2_data := by
  unfold pa_in spec_pa_input
  cases s.ps2_port0.data_out <;> cases s.ps2_port0.clk_out <;>
    cases s.joystick.joystick1_data <;> cases s.joystick.joystick2_data <;> decide

theorem pb_in_eq_spec (s : Via2) :
    pb_in s = spec_pb_input s.ps2_port1.data_out s.ps2_port1.clk_out := by
  unfold pb_in spec_pb_input
  cases s.ps2_port1.data_out <;> cases s.ps2_port1.clk_out <;> decide

theorem via2_step_pa_readback (s : Via2) :
    (via2_step s).via2pa_readback = (via2_state (pa_in s) s.via2pa_out s.via2ddra).2 := by
  unfold via2_step
  cases h0 : s.ps2_port0.clk_out <;> cases h1 : s.ps2_port1.clk_out <;>
    cases h2 : s.old_ca1 <;> cases h3 : s.old_cb1 <;> simp [h0, h1, h2, h3]

theorem via2_step_pb_readback (s : Via2) :
    (via2_step s).via2pb_readback = (via2_state (pb_in s) s.via2pb_out s.via2ddrb).2 := by
  unfold via2_step
  cases h0 : s.ps2_port0.clk_out <;> cases h1 : s.ps2_port1.clk_out <;>
    cases h2 : s.old_ca1 <;> cases h3 : s.old_cb1 <;> simp [h0, h1, h2, h3, pb_in]

theorem pa_in_bits (s : Via2) :
    (pa_in s).testBit 0 = s.ps2_port0.data_out ∧ (pa_in s).testBit 1 = s.ps2_port0.clk_out ∧
      (pa_in s).testBit 2 = true ∧ (pa_in s).testBit 3 = true ∧
      (pa_in s).testBit 4 = s.joystick.joystick1_data ∧ (pa_in s).testBit 5 = true ∧
      (pa_in s).testBit 6 = s.joystick.joystick2_data ∧ (pa_in s).testBit 7 = true := by
  unfold pa_in
  cases s.ps2_port0.data_out <;> cases s.ps2_port0.clk_out <;>
    cases s.joystick.joystick1_data <;> cases s.joystick.joystick2_data <;> decide

theorem pb_in_bits (s : Via2) :
    (pb_in s).testBit 0 = s.ps2_port1.data_out ∧ (pb_in s).testBit 1 = s.ps2_port1.clk_out ∧
      (pb_in s).testBit 2 = true ∧ (pb_in s).testBit 3 = true ∧
      (pb_in s).testBit 4 = true ∧ (pb_in s).testBit 5 = true ∧
      (pb_in s).testBit 6 = true ∧ (pb_in s).testBit 7 = true := by
  unfold pb_in
  cases s.ps2_port1.data_out <;> cases s.ps2_port1.clk_out <;> decide

/-- C16: for every chip-B state, after `via2_step` the value returned by
`via2_read(1)` is the `via2_state` readback for the Port A latch and direction
register with the external input vector bit0 = port 0 data_out, bit1 = port 0
clk_out, bit4 = joystick1_data, bit6 = joystick2_data and bits 2, 3, 5, 7
high; and `via2_read(0)` is the readback for the Port B latch and direction
register with bit0 = port 1 data_out, bit1 = port 1 clk_out and bits 2-7
high. -/
theorem via2_read_port_after_step (s : Via2) :
    (via2_read (via2_step s) 1).1 =
        (via2_state
          (spec_pa_input s.ps2_port0.data_out s.ps2_port0.clk_out
            s.joystick.joystick1_data s.joystick.joystick2_data)
          s.via2pa_out s.via2ddra).2 ∧
      (via2_read (via2_step s) 0).1 =
        (via2_state (spec_pb_input s.ps2_port1.data_out s.ps2_port1.clk_out)
          s.via2pb_out s.via2ddrb).2 ∧
      ((via2_read (via2_step s) 1).1 = (via2_state (pa_in s) s.via2pa_out s.via2ddra).2 ∧
        (pa_in s).testBit 0 = s.ps2_port0.data_out ∧
        (pa_in s).testBit 1 = s.ps2_port0.clk_out ∧
        (pa_in s).testBit 2 = true ∧ (pa_in s).testBit 3 = true ∧
        (pa_in s).testBit 4 = s.joystick.joystick1_data ∧ (pa_in s).testBit 5 = true ∧
        (pa_in s).testBit 6 = s.joystick.joystick2_data ∧ (pa_in s).testBit 7 = true) ∧
      ((via2_read (via2_step s) 0).1 = (via2_state (pb_in s) s.via2pb_out s.via2ddrb).2 ∧
        (pb_in s).testBit 0 = s.ps2_port1.data_out ∧
        (pb_in s).testBit 1 = s.ps2_port1.clk_out ∧
        (pb_in s).testBit 2 = true ∧ (pb_in s).testBit 3 = true ∧
        (pb_in s).testBit 4 = true ∧ (pb_in s).testBit 5 = true ∧
        (pb_in s).testBit 6 = true ∧ (pb_in s).testBit 7 = true) := by
  refine ⟨?_, ?_, ⟨via2_step_pa_readback s, pa_in_bits s⟩, ⟨via2_step_pb_readback s, pb_in_bits s⟩⟩
  · show (via2_step s).via2pa_readback = _
    rw [via2_step_pa_readback, pa_in_eq_spec]
  · show (via2_step s).via2pb_readback = _
    rw [via2_step_pb_readback, pb_in_eq_spec]

/-! ## C17: bit 7 of the enable register is never stored -/

theorem via2_step_ier (s : Via2) : (via2_step s).via2ier = s.via2ier := by
  unfold via2_step
  cases h0 : s.ps2_port0.clk_out <;> cases h1 : s.ps2_port1.clk_out <;>
    cases h2 : s.old_ca1 <;> cases h3 : s.old_cb1 <;> simp [h0, h1, h2, h3]

theorem via2_read_ier (s : Via2) (reg : Nat) : (via2_read s reg).2.via2ier = s.via2ier := by
  unfold via2_read
  split_ifs <;> rfl

theorem via2_write_ier_other (s : Via2) (reg v : Nat) (h : reg ≠ 14) :
    (via2_write s reg v).via2ier = s.via2ier := by
  unfold via2_write
  by_cases h0 : reg = 0
  · subst h0; simp
  · by_cases h1 : reg = 1
    · subst h1; simp
    · by_cases h2 : reg = 2
      · subst h2; simp
      · by_cases h3 : reg = 3
        · subst h3; simp
        · by_cases h13 : reg = 13
          · subst h13; simp
          · simp [h, h0, h1, h2, h3, h13]

theorem via2_write_ier_lt (s : Via2) (reg v : Nat) (h : s.via2ier < 128) :
    (via2_write s reg v).via2ier < 128 := by
  by_cases h14 : reg = 14
  · subst h14
    rw [via2_write_ier_eq]
    split_ifs
    · have hm : v &&& 0x7f < 2 ^ 7 := Nat.lt_of_le_of_lt Nat.and_le_right (by decide)
      have ho : s.via2ier ||| (v &&& 0x7f) < 2 ^ 7 := Nat.or_lt_two_pow (n := 7) h hm
      exact Nat.lt_of_le_of_lt (Nat.mod_le _ _) ho
    · exact Nat.lt_of_le_of_lt (Nat.mod_le _ _) (Nat.lt_of_le_of_lt Nat.and_le_left h)
  · rw [via2_write_ier_other s reg v h14]; exact h

theorem apply_op_ier_lt (s : Via2) (op : Op) (h : s.via2ier < 128) :
    (apply_op s op).via2ier < 128 := by
  cases op with
  | init => show (0 : Nat) < 128; decide
  | read reg => show (via2_read s reg).2.via2ier < 128; rw [via2_read_ier]; exact h
  | write reg value => exact via2_write_ier_lt s reg value h
  | step e =>
    show (via2_step (set_lines s e)).via2ier < 128
    rw [via2_step_ier]; exact h
  | get_irq_out =>
    show (via2_get_irq_out s).2.via2ier < 128
    rw [via2_get_irq_out_ier]; exact h

theorem run_ops_ier_lt (ops : List Op) :
    ∀ s : Via2, s.via2ier < 128 → (run_ops s ops).via2ier < 128 := by
  induction ops with
  | nil => intro s h; exact h
  | cons op ops ih => intro s h; exact ih (apply_op s op) (apply_op_ier_lt s op h)

/-- C17: in every chip-B state reached from `via2_init` by any sequence of
`via2_read`, `via2_write`, `via2_step` and `via2_get_irq_out` calls (further
`via2_init` calls included), each with a register index 0-15 and a byte
value, bit 7 of the stored enable register is 0, and `via2_read(14)` returns a
value below 0x80. -/
theorem ier_bit7_never_stored (s0 : Via2) (ops : List Op)
    (_hops : ∀ op ∈ ops, op.valid) :
    (run_ops (via2_init s0) ops).via2ier.testBit 7 = false ∧
      (via2_read (run_ops (via2_init s0) ops) 14).1 < 0x80 := by
  have h : (run_ops (via2_init s0) ops).via2ier < 128 :=
    run_ops_ier_lt ops (via2_init s0) (by show (0 : Nat) < 128; decide)
  exact ⟨Nat.testBit_lt_two_pow (i := 7) h, h⟩

/-- Witness of C17: the sample call sequence is within the contract; it
writes 0xff to the enable register, which then holds 0x7f. -/
theorem ier_bit7_never_stored_witness :
    (∀ op ∈ via2_sample_calls, op.valid) ∧
      (run_ops (via2_init (via2_zero port_high port_high joystick_high))
          via2_sample_calls).via2ier = 0x7f ∧
      ((run_ops (via2_init (via2_zero port_high port_high joystick_high))
          via2_sample_calls).via2ier.testBit 7 = false ∧
        (via2_read (run_ops (via2_init (via2_zero port_high port_high joystick_high))
          via2_sample_calls) 14).1 < 0x80) :=
  ⟨by decide, by decide,
   ier_bit7_never_stored (via2_zero port_high port_high joystick_high) via2_sample_calls
      (by decide)⟩

/-! ## C18: the timer slots of chip A -/

theorem via1_read_timer (rand : Nat → Nat) (s : Via1) (reg : Nat)
    (h : reg = 4 ∨ reg = 5 ∨ reg = 8 ∨ reg = 9) :
    via1_read rand s reg =
      (rand s.rand_calls % 256, { s with rand_calls := s.rand_calls + 1 }) := by
  have h0 : reg ≠ 0 := by omega
  have h1 : reg ≠ 1 := by omega
  have hm : u8 (rand s.rand_calls &&& 0xff) = rand s.rand_calls % 256 := by
    have := Nat.and_pow_two_sub_one_eq_mod (rand s.rand_calls) 8
    norm_num at this
    rw [this, u8_of_lt (Nat.mod_lt _ (by decide))]
  unfold via1_read
  simp [h0, h1, h, hm]

/-- C18: for chip A, `via1_read` of index 4, 5, 8 or 9 returns the low 8 bits
of the next value of the random source and advances the source by one call;
the result does not depend on the register storage: after `via1_write(reg, v)`
the read still returns the oracle's byte, while the write has stored `v` in
the raw slot. -/
theorem via1_timer_reads_are_random (rand : Nat → Nat) (s : Via1) (reg v : Nat)
    (hs : s.WF) (hreg : reg = 4 ∨ reg = 5 ∨ reg = 8 ∨ reg = 9) :
    (via1_read rand s reg).1 = rand s.rand_calls % 256 ∧
      (via1_read rand s reg).2.rand_calls = s.rand_calls + 1 ∧
      (via1_read rand (via1_write s reg v) reg).1 = rand s.rand_calls % 256 ∧
      (via1_write s reg v).via1registers.getD reg 0 = v ∧
      (∀ t : Via1, t.rand_calls = s.rand_calls →
        (via1_read rand t reg).1 = (via1_read rand s reg).1) := by
  have hw := via1_write_unlisted s reg v (by omega) (by omega)
  have hlen : reg < s.via1registers.length := by rw [hs.1]; omega
  refine ⟨?_, ?_, ?_, ?_, ?_⟩
  · rw [via1_read_timer rand s reg hreg]
  · rw [via1_read_timer rand s reg hreg]
  · rw [via1_read_timer rand _ reg hreg, hw]
  · rw [hw]; exact getD_set_self _ _ _ hlen
  · intro t ht
    rw [via1_read_timer rand t reg hreg, via1_read_timer rand s reg hreg, ht]

/-- Witness of C18: the random source returns 0x1234; after writing 0xAB to
register 4 the read of register 4 returns 0x34, and slot 4 holds 0xAB. -/
theorem via1_timer_reads_are_random_witness :
    (via1_read (fun _ => 0x1234) (via1_write (via1_init via1_zero) 4 0xAB) 4).1 = 0x34 ∧
      (via1_write (via1_init via1_zero) 4 0xAB).via1registers.getD 4 0 = 0xAB :=
  ⟨(via1_timer_reads_are_random (fun _ => 0x1234) (via1_init via1_zero) 4 0xAB
      (by decide) (by decide)).2.2.1.trans (by decide),
   (via1_timer_reads_are_random (fun _ => 0x1234) (via1_init via1_zero) 4 0xAB
      (by decide) (by decide)).2.2.2.1⟩

/-! ## C19: only CA1 and CB1 are ever flagged -/

theorem via2_write_ifr (s : Via2) (reg v : Nat) :
    (via2_write s reg v).via2ifr =
      if reg = 0 then u8 (s.via2ifr &&& int_not VIA_IFR_CB1)
      else if reg = 1 then u8 (s.via2ifr &&& int_not VIA_IFR_CA1)
      else s.via2ifr := by
  unfold via2_write
  by_cases h0 : reg = 0
  · subst h0; simp
  · by_cases h1 : reg = 1
    · subst h1; simp
    · by_cases h2 : reg = 2
      · subst h2; simp
      · by_cases h3 : reg = 3
        · subst h3; simp
        · by_cases h13 : reg = 13
          · subst h13; simp
          · by_cases h14 : reg = 14
            · subst h14; by_cases hv : v &&& 0x80 = 0 <;> simp [hv]
            · simp [h0, h1, h2, h3, h13, h14]

theorem via2_read_ifr_eq (s : Via2) (reg : Nat) :
    (via2_read s reg).2.via2ifr =
      if reg = 0 then u8 (s.via2ifr &&& int_not VIA_IFR_CB1)
      else if reg = 1 then u8 (s.via2ifr &&& int_not VIA_IFR_CA1)
      else s.via2ifr := by
  by_cases h0 : reg = 0
  · subst h0; rfl
  · by_cases h1 : reg = 1
    · subst h1; rfl
    · rw [via2_read_ifr_other s reg h0 h1]; simp [h0, h1]

/-- The flag values with no bit other than CA1 and CB1. -/
theorem clear_flag_only_ca1_cb1 {x : Nat} (h : x = 0 ∨ x = 2 ∨ x = 16 ∨ x = 18) (reg : Nat) :
    (if reg = 0 then u8 (x &&& int_not VIA_IFR_CB1)
      else if reg = 1 then u8 (x &&& int_not VIA_IFR_CA1)
      else x) = 0 ∨
    (if reg = 0 then u8 (x &&& int_not VIA_IFR_CB1)
      else if reg = 1 then u8 (x &&& int_not VIA_IFR_CA1)
      else x) = 2 ∨
    (if reg = 0 then u8 (x &&& int_not VIA_IFR_CB1)
      else if reg = 1 then u8 (x &&& int_not VIA_IFR_CA1)
      else x) = 16 ∨
    (if reg = 0 then u8 (x &&& int_not VIA_IFR_CB1)
      else if reg = 1 then u8 (x &&& int_not VIA_IFR_CA1)
      else x) = 18 := by
  by_cases h0 : reg = 0
  · simp only [h0, if_true]
    rcases h with h | h | h | h <;> subst h <;> decide
  · by_cases h1 : reg = 1
    · simp only [h1, if_true, if_false, show (1 : Nat) ≠ 0 from by decide]
      rcases h with h | h | h | h <;> subst h <;> decide
    · simp only [h0, h1, if_false]
      exact h

theorem step_ifr_only_ca1_cb1 {x : Nat} (h : x = 0 ∨ x = 2 ∨ x = 16 ∨ x = 18)
    (o1 o2 c0 c1 : Bool) :
    step_ifr x o1 o2 c0 c1 = 0 ∨ step_ifr x o1 o2 c0 c1 = 2 ∨
      step_ifr x o1 o2 c0 c1 = 16 ∨ step_ifr x o1 o2 c0 c1 = 18 := by
  rcases h with h | h | h | h <;> subst h <;>
    cases o1 <;> cases o2 <;> cases c0 <;> cases c1 <;> decide

theorem apply_op_ifr_only_ca1_cb1 (s : Via2) (op : Op)
    (h : s.via2ifr = 0 ∨ s.via2ifr = 2 ∨ s.via2ifr = 16 ∨ s.via2ifr = 18) :
    (apply_op s op).via2ifr = 0 ∨ (apply_op s op).via2ifr = 2 ∨
      (apply_op s op).via2ifr = 16 ∨ (apply_op s op).via2ifr = 18 := by
  cases op with
  | init => exact h
  | read reg =>
    have e : (apply_op s (Op.read reg)).via2ifr = _ := via2_read_ifr_eq s reg
    rw [e]; exact clear_flag_only_ca1_cb1 h reg
  | write reg value =>
    have e : (apply_op s (Op.write reg value)).via2ifr = _ := via2_write_ifr s reg value
    rw [e]; exact clear_flag_only_ca1_cb1 h reg
  | step e =>
    have e2 : (apply_op s (Op.step e)).via2ifr = _ := via2_step_ifr (set_lines s e)
    rw [e2]; exact step_ifr_only_ca1_cb1 h _ _ _ _
  | get_irq_out =>
    have e : (apply_op s Op.get_irq_out).via2ifr = s.via2ifr := via2_get_irq_out_ifr s
    rw [e]; exact h

theorem run_ops_ifr_only_ca1_cb1 (ops : List Op) :
    ∀ s : Via2, (s.via2ifr = 0 ∨ s.via2ifr = 2 ∨ s.via2ifr = 16 ∨ s.via2ifr = 18) →
      ((run_ops s ops).via2ifr = 0 ∨ (run_ops s ops).via2ifr = 2 ∨
        (run_ops s ops).via2ifr = 16 ∨ (run_ops s ops).via2ifr = 18) := by
  induction ops with
  | nil => intro s h; exact h
  | cons op ops ih => intro s h; exact ih (apply_op s op) (apply_op_ifr_only_ca1_cb1 s op h)

/-- C19: in every chip-B state reached from the zero-initialised statics by
any sequence of `via2_init`, `via2_read`, `via2_write`, `via2_step` and
`via2_get_irq_out` calls, each with a register index 0-15 and a byte value,
the stored flag register has no bit set other than bit 1 (value 2, CA1) and
bit 4 (value 16, CB1), and `via2_read(13)` returns 0x00, 0x82, 0x90 or
0x92. -/
theorem ifr_only_ca1_cb1 (p0 p1 : Ps2Port) (j : Joystick) (ops : List Op)
    (_hops : ∀ op ∈ ops, op.valid) :
    (∀ i, (run_ops (via2_zero p0 p1 j) ops).via2ifr.testBit i = true → i = 1 ∨ i = 4) ∧
      ((via2_read (run_ops (via2_zero p0 p1 j) ops) 13).1 = 0x00 ∨
        (via2_read (run_ops (via2_zero p0 p1 j) ops) 13).1 = 0x82 ∨
        (via2_read (run_ops (via2_zero p0 p1 j) ops) 13).1 = 0x90 ∨
        (via2_read (run_ops (via2_zero p0 p1 j) ops) 13).1 = 0x92) := by
  have h := run_ops_ifr_only_ca1_cb1 ops (via2_zero p0 p1 j) (Or.inl rfl)
  constructor
  · intro i hi
    rcases h with h | h | h | h <;> rw [h] at hi
    · simp at hi
    · rw [testBit_two] at hi; left; simpa using hi
    · rw [testBit_sixteen] at hi; right; simpa using hi
    · have h18 : (18 : Nat) = 2 ||| 16 := by decide
      rw [h18, Nat.testBit_or, testBit_two, testBit_sixteen] at hi
      simpa using hi
  · unfold via2_read
    rcases h with h | h | h | h <;> simp [h] <;> decide

/-- Witness of C19: the sample call sequence is within the contract; after
it CB1 is still pending and CA1 has been read away, so the flag register
holds 16 and `via2_read(13)` returns 0x90. -/
theorem ifr_only_ca1_cb1_witness :
    (∀ op ∈ via2_sample_calls, op.valid) ∧
      (via2_read (run_ops (via2_zero port_high port_high joystick_high)
          via2_sample_calls) 13).1 = 0x90 ∧
      ((∀ i, (run_ops (via2_zero port_high port_high joystick_high)
            via2_sample_calls).via2ifr.testBit i = true → i = 1 ∨ i = 4) ∧
        ((via2_read (run_ops (via2_zero port_high port_high joystick_high)
            via2_sample_calls) 13).1 = 0x00 ∨
          (via2_read (run_ops (via2_zero port_high port_high joystick_high)
            via2_sample_calls) 13).1 = 0x82 ∨
          (via2_read (run_ops (via2_zero port_high port_high joystick_high)
            via2_sample_calls) 13).1 = 0x90 ∨
          (via2_read (run_ops (via2_zero port_high port_high joystick_high)
            via2_sample_calls) 13).1 = 0x92)) :=
  ⟨by decide, by decide,
   ifr_only_ca1_cb1 port_high port_high joystick_high via2_sample_calls (by decide)⟩

/-! ## C20: the edge detectors see the peripheral clocks only -/

/-- C20: the flag register and the stored previous line levels after
`via2_step` depend only on their values before the step and on the two
peripheral clock-out levels: two states that agree on those, and differ
arbitrarily in direction registers, output latches, data-out lines and
joystick inputs, end with the same flag register and stored levels.  In
particular a step in which the peripheral leaves its clock high leaves the
flag of that line as it was, whatever the chip itself drives on the line. -/
theorem via2_step_flags_depend_on_clocks_only (s t : Via2)
    (hifr : s.via2ifr = t.via2ifr) (hca1 : s.old_ca1 = t.old_ca1)
    (hcb1 : s.old_cb1 = t.old_cb1)
    (hclk0 : s.ps2_port0.clk_out = t.ps2_port0.clk_out)
    (hclk1 : s.ps2_port1.clk_out = t.ps2_port1.clk_out) :
    (via2_step s).via2ifr = (via2_step t).via2ifr ∧
      (via2_step s).old_ca1 = (via2_step t).old_ca1 ∧
      (via2_step s).old_cb1 = (via2_step t).old_cb1 ∧
      (s.ps2_port0.clk_out = true →
        (via2_step s).via2ifr.testBit 1 = s.via2ifr.testBit 1) ∧
      (s.ps2_port1.clk_out = true →
        (via2_step s).via2ifr.testBit 4 = s.via2ifr.testBit 4) := by
  refine ⟨?_, ?_, ?_, ?_, ?_⟩
  · rw [via2_step_ifr, via2_step_ifr, hifr, hca1, hcb1, hclk0, hclk1]
  · rw [via2_step_old_ca1, via2_step_old_ca1, hclk0]
  · rw [via2_step_old_cb1, via2_step_old_cb1, hclk1]
  · intro h
    rw [via2_step_ifr, step_ifr_testBit_ca1, h]; simp
  · intro h
    rw [via2_step_ifr, step_ifr_testBit_cb1, h]; simp

/-- Witness of C20: the started chip, and the same chip with Port A bit 1
driven low by its own latch.  The two agree on flags, stored levels and clock
lines; in the second the resolved keyboard clock pin is low after the step,
and the flag register is 0 as in the first. -/
theorem via2_step_flags_depend_on_clocks_only_witness :
    (via2_step via2_chip_pulls_clk0).via2pa_pinstate.testBit 1 = false ∧
      (via2_step via2_started).via2ifr = 0 ∧
      (via2_step via2_started).via2ifr = (via2_step via2_chip_pulls_clk0).via2ifr ∧
      (via2_step via2_chip_pulls_clk0).via2ifr.testBit 1
        = via2_chip_pulls_clk0.via2ifr.testBit 1 :=
  ⟨by decide, by decide,
   (via2_step_flags_depend_on_clocks_only via2_started via2_chip_pulls_clk0
      (by decide) (by decide) (by decide) (by decide) (by decide)).1,
   (via2_step_flags_depend_on_clocks_only via2_chip_pulls_clk0 via2_started
      (by decide) (by decide) (by decide) (by decide) (by decide)).2.2.2.1 (by decide)⟩

end Via
